import Mathlib

/-
Shallow embedding of the pipeline-orchestration core of the repository:
  - src/core/orchestration/types.ts            (data model)
  - src/core/orchestration/performance-tracker.ts
  - performance-interceptor (PerformanceInterceptor.wrap)
  - orchestrator-metrics (OrchestratorMetrics: prom-client instruments)
  - base-orchestrator (BaseOrchestrator: execute / runPipeline /
    runPipelineWithTimeout / runWithTimeout)

Modelling conventions:
  - Wall-clock time (Date.now) is a monotone integer clock carried in an
    explicit execution state; each asynchronous operation declares the number
    of milliseconds it takes to settle.
  - The prom-client instruments are modelled as append-only observation lists
    (histograms, counters) and a delta list (gauge), labelled exactly as in
    orchestrator-metrics.
  - The single mutable DefaultPerformanceTracker object created per execution
    is modelled as a store in the execution state; a context holds a reference
    (default tracker / null tracker / none), mirroring JS reference semantics
    under which every context produced during one run shares that object.
  - Thrown JS values are either Error instances or arbitrary other values;
    `error instanceof Error ? error : new Error(String(error))` is toError.
  - A cooperative timeout race is decided by comparing the declared settle
    time with the timeout budget; when the timeout wins, the orchestrator
    stops waiting and the orphaned completion of the in-flight operation is
    not observed by any further step of the same run.
  - Fields of the TS context that the claims never inspect (results, metadata,
    orchestrator-specific extensions) are abstracted into a payload value.
-/

namespace Orchestration

/-- A JS Error value, identified by its message. -/
structure JSError where
  message : String
deriving Repr, DecidableEq

/-- A thrown JS value: either an Error instance or some other value
(represented by its String coercion). -/
inductive Thrown where
  | errVal : JSError → Thrown
  | nonError : String → Thrown
deriving Repr, DecidableEq

/-- `error instanceof Error ? error : new Error(String(error))`. -/
def Thrown.toError : Thrown → JSError
  | .errVal e => e
  | .nonError s => { message := s }

/-- `error instanceof Error ? error.message : String(error)`. -/
def Thrown.msgOf : Thrown → String
  | .errVal e => e.message
  | .nonError s => s

/-- Which PerformanceTracker implementation a context references
(performance-tracker.ts): the recording DefaultPerformanceTracker or the
no-op NullPerformanceTracker. -/
inductive TrackerRef where
  | defaultTracker
  | nullTracker
deriving Repr, DecidableEq

/-- OperationContext (types.ts): requestId, startTime, the optional tracker
reference, the accumulated error list, and a payload abstracting the
results / metadata / subclass-specific fields the claims never inspect. -/
structure OperationContext (α : Type) where
  requestId : String
  startTime : Int
  perfTracker : Option TrackerRef
  errors : List JSError
  payload : α
deriving Repr, DecidableEq

/-- `this.metrics[stage] = duration` of DefaultPerformanceTracker.track:
overwrite the entry for the key if present, otherwise append it. -/
def recordEntry (m : List (String × Int)) (k : String) (v : Int) :
    List (String × Int) :=
  if m.any (fun p => p.1 == k) then
    m.map (fun p => if p.1 == k then (k, v) else p)
  else m ++ [(k, v)]

/-- The four process-wide instruments of OrchestratorMetrics, with their
label sets: activeOperations {service}, pipelineDuration {service, status},
stageLatency {service, stage}, pipelineErrors {service, stage}. Histograms
and counters are append-only observation lists; the gauge is a delta list. -/
structure MetricsSink where
  activeOperations : List (String × Int)
  pipelineDuration : List (String × String × Int)
  stageLatency : List (String × String × Int)
  pipelineErrors : List (String × String)
deriving Repr, DecidableEq

/-- Current value of the active-operations gauge for one service label. -/
def gaugeValue (g : List (String × Int)) (service : String) : Int :=
  ((g.filter (fun p => p.1 == service)).map (fun p => p.2)).sum

/-- Execution state threaded through one run: the Date.now clock, the
process-wide metrics sink, and the store of the DefaultPerformanceTracker
object shared by reference across the run. -/
structure ExecState where
  now : Int
  sink : MetricsSink
  trackerData : List (String × Int)
deriving Repr, DecidableEq

/-- `OrchestratorMetrics.activeOperations.inc({ service })`. -/
def gaugeInc (st : ExecState) (service : String) : ExecState :=
  { st with sink :=
      { st.sink with activeOperations := st.sink.activeOperations ++ [(service, 1)] } }

/-- `OrchestratorMetrics.activeOperations.dec({ service })`. -/
def gaugeDec (st : ExecState) (service : String) : ExecState :=
  { st with sink :=
      { st.sink with activeOperations := st.sink.activeOperations ++ [(service, -1)] } }

/-- `OrchestratorMetrics.pipelineDuration.observe({ service, status }, v)`. -/
def observePipelineDuration (st : ExecState) (service status : String) (v : Int) :
    ExecState :=
  { st with sink :=
      { st.sink with pipelineDuration := st.sink.pipelineDuration ++ [(service, status, v)] } }

/-- `OrchestratorMetrics.stageLatency.observe({ service, stage }, v)`. -/
def observeStageLatency (st : ExecState) (service stage : String) (v : Int) :
    ExecState :=
  { st with sink :=
      { st.sink with stageLatency := st.sink.stageLatency ++ [(service, stage, v)] } }

/-- `OrchestratorMetrics.pipelineErrors.inc({ service, stage })`. -/
def incPipelineErrors (st : ExecState) (service stage : String) : ExecState :=
  { st with sink :=
      { st.sink with pipelineErrors := st.sink.pipelineErrors ++ [(service, stage)] } }

/-- `context.perfTracker.track(name, duration)` dispatched on the tracker
reference; with no tracker attached nothing is recorded (the wrapper guards
the call with `if (context.perfTracker)`). -/
def trackerTrack (st : ExecState) (ref : Option TrackerRef) (stage : String)
    (duration : Int) : ExecState :=
  match ref with
  | some .defaultTracker => { st with trackerData := recordEntry st.trackerData stage duration }
  | some .nullTracker => st
  | none => st

/-- `perfTracker.getMetrics()`: a snapshot of the store for the default
tracker, the empty map for the null tracker. -/
def trackerGetMetrics (st : ExecState) : TrackerRef → List (String × Int)
  | .defaultTracker => st.trackerData
  | .nullTracker => []

/-- A pipeline operation `(context) => Promise<context>`: it settles after
`cost` milliseconds, either resolving to a context or rejecting with a
thrown value. -/
structure StageOp (α : Type) where
  cost : Nat
  run : OperationContext α → Except Thrown (OperationContext α)

/-- PipelineStage (types.ts): name, operation, optional critical flag,
optional stage-specific timeout. -/
structure PipelineStage (α : Type) where
  name : String
  operation : StageOp α
  critical : Option Bool := none
  timeout : Option Nat := none

/-- OrchestratorConfig (types.ts). -/
structure OrchestratorConfig where
  name : String
  timeout : Option Nat := none
  enableMetrics : Option Bool := none
  logErrors : Option Bool := none

/-- `Required<OrchestratorConfig>` as produced by the constructor. -/
structure ResolvedConfig where
  name : String
  timeout : Nat
  enableMetrics : Bool
  logErrors : Bool
deriving Repr, DecidableEq

/-- The BaseOrchestrator constructor: `timeout ?? 30000`,
`enableMetrics ?? true`, `logErrors ?? true`. -/
def resolveConfig (c : OrchestratorConfig) : ResolvedConfig :=
  { name := c.name
    timeout := c.timeout.getD 30000
    enableMetrics := c.enableMetrics.getD true
    logErrors := c.logErrors.getD true }

/-- OrchestratorResult (types.ts). -/
structure OrchestratorResult (β : Type) where
  success : Bool
  data : Option β
  error : Option JSError
  duration : Int
  metrics : Option (List (String × Int))
deriving Repr, DecidableEq

/-- A concrete orchestrator: resolved configuration plus the three
subclass hooks. The context initializer settles after initCost ms. -/
structure BaseOrchestrator (γ α β : Type) where
  config : ResolvedConfig
  initCost : Nat
  initializeContext : γ → Except Thrown (OperationContext α)
  getPipeline : List (PipelineStage α)
  buildResult : OperationContext α → Except Thrown β

/-- Helper building the quoted stage name appearing in error messages. -/
def quoted (s : String) : String := "\x27" ++ s ++ "\x27"

/-- Message of the per-stage timeout rejection in runWithTimeout. -/
def stageTimeoutMsg (stageName : String) (t : Nat) : String :=
  "Stage " ++ quoted stageName ++ " timeout after " ++ toString t ++ "ms"

/-- Message of the error thrown for a failing critical stage. -/
def criticalStageMsg (stageName msg : String) : String :=
  "Critical stage " ++ quoted stageName ++ " failed: " ++ msg

/-- Message of the whole-pipeline timeout rejection. -/
def pipelineTimeoutMsg (cfg : ResolvedConfig) : String :=
  "Pipeline timeout after " ++ toString cfg.timeout ++ "ms in orchestrator: " ++ cfg.name

variable {α β γ : Type}

/-- PerformanceInterceptor.wrap: run the operation, compute the elapsed
time, record it under the plain name on success and under the
error-suffixed name on failure, and pass the outcome through unchanged
(rethrow on failure). -/
def PerformanceInterceptor.wrap (op : StageOp α) (operationName : String)
    (st : ExecState) (ctx : OperationContext α) :
    ExecState × Except Thrown (OperationContext α) :=
  match op.run ctx with
  | .ok result =>
      (trackerTrack { st with now := st.now + (op.cost : Int) } ctx.perfTracker
        operationName ((st.now + (op.cost : Int)) - st.now), .ok result)
  | .error e =>
      (trackerTrack { st with now := st.now + (op.cost : Int) } ctx.perfTracker
        (operationName ++ "_error") ((st.now + (op.cost : Int)) - st.now), .error e)

/-- One stage call as issued by the loop body: the wrapped operation, raced
against the stage timeout when `if (stage.timeout)` is truthy (a configured
timeout of 0 is falsy and disables the race). The race is decided by the
settle time of the operation; when the timeout wins the orchestrator stops
waiting, so the orphaned completion is not observed. -/
def runStageRaced (op : StageOp α) (stageName : String) (stageTimeout : Option Nat)
    (st : ExecState) (ctx : OperationContext α) :
    ExecState × Except Thrown (OperationContext α) :=
  match stageTimeout with
  | some t =>
      if t == 0 then PerformanceInterceptor.wrap op stageName st ctx
      else if t < op.cost then
        ({ st with now := st.now + (t : Int) },
          .error (.errVal { message := stageTimeoutMsg stageName t }))
      else PerformanceInterceptor.wrap op stageName st ctx
  | none => PerformanceInterceptor.wrap op stageName st ctx

/-- BaseOrchestrator.runPipeline: the sequential stage loop. On a stage
success the stage latency is observed (when metrics are enabled); on a
stage failure the pipeline-error counter is incremented with the stage
label (when metrics are enabled), then `if (stage.critical)` decides:
truthy aborts the pipeline with a critical-stage error, otherwise the
thrown value is converted to an Error, appended to the context error list,
and the loop continues. -/
def BaseOrchestrator.runPipeline (cfg : ResolvedConfig) :
    List (PipelineStage α) → ExecState → OperationContext α →
      ExecState × Except Thrown (OperationContext α)
  | [], st, ctx => (st, .ok ctx)
  | stage :: rest, st, ctx =>
      match runStageRaced stage.operation stage.name stage.timeout st ctx with
      | (st1, .ok nextCtx) =>
          BaseOrchestrator.runPipeline cfg rest
            (if cfg.enableMetrics then
              observeStageLatency st1 cfg.name stage.name (st1.now - st.now)
            else st1) nextCtx
      | (st1, .error e) =>
          let st2 := if cfg.enableMetrics then incPipelineErrors st1 cfg.name stage.name else st1
          if stage.critical.getD false then
            (st2, .error (.errVal { message := criticalStageMsg stage.name e.msgOf }))
          else
            BaseOrchestrator.runPipeline cfg rest st2
              { ctx with errors := ctx.errors ++ [e.toError] }

/-- BaseOrchestrator.runPipelineWithTimeout: race the whole loop against
the configured total timeout; if the loop settles more than
`config.timeout` ms after the race started, the timeout rejection already
won. The loop keeps running in the background in the source, so the final
sink and tracker state are its eventual state. -/
def BaseOrchestrator.runPipelineWithTimeout (cfg : ResolvedConfig)
    (st : ExecState) (ctx : OperationContext α) (pipeline : List (PipelineStage α)) :
    ExecState × Except Thrown (OperationContext α) :=
  if (cfg.timeout : Int) < (BaseOrchestrator.runPipeline cfg pipeline st ctx).1.now - st.now then
    ((BaseOrchestrator.runPipeline cfg pipeline st ctx).1,
      .error (.errVal { message := pipelineTimeoutMsg cfg }))
  else BaseOrchestrator.runPipeline cfg pipeline st ctx

/-- Lines 62-67 of execute: attach a DefaultPerformanceTracker when metrics
are enabled and the initialized context carries none, otherwise attach a
NullPerformanceTracker when the context carries none, otherwise keep the
context unchanged. -/
def attachTracker (cfg : ResolvedConfig) (ctx : OperationContext α) :
    OperationContext α :=
  if cfg.enableMetrics && ctx.perfTracker.isNone then
    { ctx with perfTracker := some .defaultTracker }
  else if ctx.perfTracker.isNone then
    { ctx with perfTracker := some .nullTracker }
  else ctx

/-- The store effect of `new DefaultPerformanceTracker()`: exactly when
execute creates a fresh default tracker, the shared store starts empty. -/
def freshTrackerStore (cfg : ResolvedConfig) (ctx : OperationContext α)
    (st : ExecState) : ExecState :=
  if cfg.enableMetrics && ctx.perfTracker.isNone then { st with trackerData := [] } else st

/-- The catch block of execute (lines 95-118): observe the error-status
pipeline duration, increment the pipeline-error counter with the placeholder
stage label, decrement the gauge (all when metrics are enabled), and return
a failed result whose error is the thrown value coerced to an Error and
whose metrics come from the tracker of the last assigned context (`ref` is
none when the context was never assigned). -/
def catchReturn (cfg : ResolvedConfig) (startTime : Int) (ref : Option TrackerRef)
    (e : Thrown) (st : ExecState) : ExecState × OrchestratorResult β :=
  (if cfg.enableMetrics then
      gaugeDec
        (incPipelineErrors
          (observePipelineDuration st cfg.name "error" (st.now - startTime))
          cfg.name "unknown")
        cfg.name
    else st,
    { success := false, data := none, error := some e.toError,
      duration := st.now - startTime,
      metrics := ref.map (trackerGetMetrics
        (if cfg.enableMetrics then
          gaugeDec
            (incPipelineErrors
              (observePipelineDuration st cfg.name "error" (st.now - startTime))
              cfg.name "unknown")
            cfg.name
        else st)) })

/-- Lines 50-60 of execute: capture startTime, increment the gauge when
metrics are enabled, then spend initCost ms awaiting the context
initializer. The resulting state is the one in force when the initializer
settles (successfully or not). -/
def preStB (o : BaseOrchestrator γ α β) (st0 : ExecState) : ExecState :=
  { (if o.config.enableMetrics then gaugeInc st0 o.config.name else st0) with
      now := (if o.config.enableMetrics then gaugeInc st0 o.config.name else st0).now
        + (o.initCost : Int) }

/-- The success return of execute (lines 78-94): observe the
success-status pipeline duration, decrement the gauge (when metrics are
enabled), and return a successful result whose metrics are the snapshot of
the tracker referenced by the final context. -/
def successReturn (cfg : ResolvedConfig) (startTime : Int) (stD : ExecState)
    (ctx2 : OperationContext α) (r : β) : ExecState × OrchestratorResult β :=
  (if cfg.enableMetrics then
      gaugeDec (observePipelineDuration stD cfg.name "success" (stD.now - startTime)) cfg.name
    else stD,
    { success := true, data := some r, error := none,
      duration := stD.now - startTime,
      metrics := ctx2.perfTracker.map (trackerGetMetrics
        (if cfg.enableMetrics then
          gaugeDec (observePipelineDuration stD cfg.name "success" (stD.now - startTime))
            cfg.name
        else stD)) })

/-- BaseOrchestrator.execute: increment the gauge, build the context
(taking initCost ms), attach a tracker (resetting the shared store exactly
when a fresh default tracker is created), run the pipeline under the total
timeout, build the result, and return through the success path; any
rejection along the way lands in the catch block, which receives the
tracker reference of the last context assigned before the throw (none when
initialization itself threw). -/
def BaseOrchestrator.execute (o : BaseOrchestrator γ α β) (input : γ)
    (st0 : ExecState) : ExecState × OrchestratorResult β :=
  match o.initializeContext input with
  | .error e => catchReturn o.config st0.now none e (preStB o st0)
  | .ok ctx0 =>
      match BaseOrchestrator.runPipelineWithTimeout o.config
          (freshTrackerStore o.config ctx0 (preStB o st0)) (attachTracker o.config ctx0)
          o.getPipeline with
      | (stD, .error e) =>
          catchReturn o.config st0.now (attachTracker o.config ctx0).perfTracker e stD
      | (stD, .ok ctx2) =>
          match o.buildResult ctx2 with
          | .error e => catchReturn o.config st0.now ctx2.perfTracker e stD
          | .ok result => successReturn o.config st0.now stD ctx2 result

/-- Total declared settle time of a stage list. -/
def costSum (l : List (PipelineStage α)) : Nat :=
  (l.map (fun s => s.operation.cost)).sum

/-- Whether the per-stage timeout race of runWithTimeout fires for this
stage: a truthy configured timeout strictly smaller than the settle time. -/
def PipelineStage.timesOut (s : PipelineStage α) : Bool :=
  match s.timeout with
  | some t => !(t == 0) && t < s.operation.cost
  | none => false

/-- A stage whose operation always resolves, leaving the error list and the
tracker reference of the context untouched, and whose stage timeout never
fires. -/
def GoodStage (s : PipelineStage α) : Prop :=
  s.timesOut = false ∧
    ∀ c, ∃ c', s.operation.run c = .ok c' ∧ c'.errors = c.errors ∧
      c'.perfTracker = c.perfTracker

/-- Effect of one track call on the shared store, as seen through a tracker
reference. -/
def trackPoint (ref : Option TrackerRef) (m : List (String × Int)) (k : String)
    (v : Int) : List (String × Int) :=
  match ref with
  | some .defaultTracker => recordEntry m k v
  | some .nullTracker => m
  | none => m

/-- Store contents after a run of successful stages, each recording its
settle time under its plain name. -/
def trackOkList (ref : Option TrackerRef) (m : List (String × Int))
    (l : List (PipelineStage α)) : List (String × Int) :=
  l.foldl (fun acc s => trackPoint ref acc s.name (s.operation.cost : Int)) m

/-- An operation resolving immediately with the unchanged context. -/
def idOp : StageOp Unit := { cost := 0, run := fun c => .ok c }

/-- An operation rejecting immediately with a fixed Error. -/
def boomOp : StageOp Unit :=
  { cost := 0, run := fun _ => .error (.errVal { message := "boom" }) }

/-- A context with no tracker attached and an empty error list. -/
def demoCtx : OperationContext Unit :=
  { requestId := "r1", startTime := 0, perfTracker := none, errors := [], payload := () }

/-- A fresh execution state: clock at zero, empty sink, empty store. -/
def st0 : ExecState :=
  { now := 0
    sink := { activeOperations := [], pipelineDuration := [], stageLatency := [],
              pipelineErrors := [] }
    trackerData := [] }

/-- A failing stage whose critical field is left unset. -/
def unsetCriticalStage : PipelineStage Unit :=
  { name := "s1", operation := boomOp }

/-- A succeeding critical stage placed after the failing one. -/
def afterStage : PipelineStage Unit :=
  { name := "s2", operation := idOp, critical := some true }

/-- Orchestrator exhibiting the behaviour of an unset critical flag: its
first stage fails, its second stage succeeds. -/
def demoOrchC1 : BaseOrchestrator Unit Unit Unit :=
  { config := resolveConfig { name := "svc" }
    initCost := 0
    initializeContext := fun _ => .ok demoCtx
    getPipeline := [unsetCriticalStage, afterStage]
    buildResult := fun _ => .ok () }

/-- A failing stage explicitly marked critical. -/
def criticalBoomStage : PipelineStage Unit :=
  { name := "s1", operation := boomOp, critical := some true }

/-- Orchestrator with a single failing critical stage. -/
def demoOrchC6 : BaseOrchestrator Unit Unit Unit :=
  { config := resolveConfig { name := "svc" }
    initCost := 0
    initializeContext := fun _ => .ok demoCtx
    getPipeline := [criticalBoomStage]
    buildResult := fun _ => .ok () }

/-- Builds a small concrete orchestrator over the demo context with the
given stage list, default configuration and trivial hooks. -/
def mkOrch (l : List (PipelineStage Unit)) : BaseOrchestrator Unit Unit Unit :=
  { config := resolveConfig { name := "svc" }
    initCost := 0
    initializeContext := fun _ => .ok demoCtx
    getPipeline := l
    buildResult := fun _ => .ok () }

/-- A succeeding critical stage named a. -/
def stageA : PipelineStage Unit := { name := "a", operation := idOp, critical := some true }

/-- A succeeding critical stage named c. -/
def stageC : PipelineStage Unit := { name := "c", operation := idOp, critical := some true }

/-- A failing stage named k, explicitly critical. -/
def kCrit : PipelineStage Unit := { name := "k", operation := boomOp, critical := some true }

/-- A failing stage named k, explicitly non-critical. -/
def kNon : PipelineStage Unit := { name := "k", operation := boomOp, critical := some false }

/-- A failing stage named k with the critical field left unset. -/
def kUnset : PipelineStage Unit := { name := "k", operation := boomOp }

/-- The demo context with a default tracker attached. -/
def demoCtxTracked : OperationContext Unit :=
  { demoCtx with perfTracker := some .defaultTracker }

/-- An orchestrator whose context initializer throws. -/
def demoOrchInitFail : BaseOrchestrator Unit Unit Unit :=
  { config := resolveConfig { name := "svc" }
    initCost := 7
    initializeContext := fun _ => .error (.nonError "bad input")
    getPipeline := [stageA]
    buildResult := fun _ => .ok () }

/-- An orchestrator with metrics disabled. -/
def demoOrchNoMetrics : BaseOrchestrator Unit Unit Unit :=
  { config := resolveConfig { name := "svc", enableMetrics := some false }
    initCost := 0
    initializeContext := fun _ => .ok demoCtx
    getPipeline := [stageA, stageC]
    buildResult := fun _ => .ok () }

lemma trackerTrack_eq (st : ExecState) (ref : Option TrackerRef) (k : String) (v : Int) :
    trackerTrack st ref k v = { st with trackerData := trackPoint ref st.trackerData k v } := by
  cases ref with
  | none => rfl
  | some r => cases r <;> rfl

lemma wrap_run_ok {op : StageOp α} {ctx c' : OperationContext α} (nm : String)
    (st : ExecState) (h : op.run ctx = .ok c') :
    PerformanceInterceptor.wrap op nm st ctx =
      ({ st with
          now := st.now + (op.cost : Int)
          trackerData := trackPoint ctx.perfTracker st.trackerData nm (op.cost : Int) },
        .ok c') := by
  simp only [PerformanceInterceptor.wrap, h, trackerTrack_eq, add_sub_cancel_left]

lemma wrap_run_error {op : StageOp α} {ctx : OperationContext α} {e : Thrown} (nm : String)
    (st : ExecState) (h : op.run ctx = .error e) :
    PerformanceInterceptor.wrap op nm st ctx =
      ({ st with
          now := st.now + (op.cost : Int)
          trackerData := trackPoint ctx.perfTracker st.trackerData (nm ++ "_error") (op.cost : Int) },
        .error e) := by
  simp only [PerformanceInterceptor.wrap, h, trackerTrack_eq, add_sub_cancel_left]

lemma wrap_snd (op : StageOp α) (nm : String) (st : ExecState) (ctx : OperationContext α) :
    (PerformanceInterceptor.wrap op nm st ctx).2 = op.run ctx := by
  cases h : op.run ctx with
  | ok c => rw [wrap_run_ok nm st h]
  | error e => rw [wrap_run_error nm st h]

lemma wrap_fst_sink (op : StageOp α) (nm : String) (st : ExecState) (ctx : OperationContext α) :
    (PerformanceInterceptor.wrap op nm st ctx).1.sink = st.sink := by
  cases h : op.run ctx with
  | ok c => rw [wrap_run_ok nm st h]
  | error e => rw [wrap_run_error nm st h]

lemma runStageRaced_eq_wrap {s : PipelineStage α} (h : s.timesOut = false)
    (st : ExecState) (ctx : OperationContext α) :
    runStageRaced s.operation s.name s.timeout st ctx =
      PerformanceInterceptor.wrap s.operation s.name st ctx := by
  unfold runStageRaced
  cases hT : s.timeout with
  | none => rfl
  | some t =>
      unfold PipelineStage.timesOut at h
      rw [hT] at h
      simp only [Bool.and_eq_false_iff] at h
      rcases h with h0 | hle
      · have h0' : (t == 0) = true := by simpa using h0
        simp only [h0', if_true]
      · have hle' : ¬t < s.operation.cost := by simpa using hle
        by_cases h0 : (t == 0) = true
        · simp only [h0, if_true]
        · simp [h0, hle']

lemma runStageRaced_fst_sink (op : StageOp α) (nm : String) (tmo : Option Nat)
    (st : ExecState) (ctx : OperationContext α) :
    (runStageRaced op nm tmo st ctx).1.sink = st.sink := by
  unfold runStageRaced
  cases tmo with
  | none => exact wrap_fst_sink op nm st ctx
  | some t =>
      by_cases h0 : (t == 0) = true
      · simp [h0, wrap_fst_sink]
      · simp only [h0, Bool.false_eq_true, if_false]
        by_cases hlt : t < op.cost
        · rw [if_pos hlt]
        · rw [if_neg hlt]; exact wrap_fst_sink op nm st ctx

lemma runStageRaced_ok_run {op : StageOp α} {nm : String} {tmo : Option Nat}
    {st : ExecState} {ctx c1 : OperationContext α} {st1 : ExecState}
    (h : runStageRaced op nm tmo st ctx = (st1, .ok c1)) : op.run ctx = .ok c1 := by
  cases tmo with
  | none =>
      simp only [runStageRaced] at h
      rw [← wrap_snd op nm st ctx, h]
  | some t =>
      simp only [runStageRaced] at h
      by_cases h0 : (t == 0) = true
      · simp only [h0, if_true] at h
        rw [← wrap_snd op nm st ctx, h]
      · simp only [h0, Bool.false_eq_true, if_false] at h
        by_cases hlt : t < op.cost
        · rw [if_pos hlt] at h
          exact absurd (congrArg Prod.snd h) (by simp)
        · rw [if_neg hlt] at h
          rw [← wrap_snd op nm st ctx, h]

lemma costSum_cons (s : PipelineStage α) (l : List (PipelineStage α)) :
    costSum (s :: l) = s.operation.cost + costSum l := by
  simp [costSum]

lemma trackOkList_cons (ref : Option TrackerRef) (m : List (String × Int))
    (s : PipelineStage α) (l : List (PipelineStage α)) :
    trackOkList ref m (s :: l) =
      trackOkList ref (trackPoint ref m s.name (s.operation.cost : Int)) l := rfl

lemma ifObserve_now (c : Bool) (stW : ExecState) (a b : String) (v : Int) :
    (if c then observeStageLatency stW a b v else stW).now = stW.now := by
  split <;> rfl

lemma ifObserve_trackerData (c : Bool) (stW : ExecState) (a b : String) (v : Int) :
    (if c then observeStageLatency stW a b v else stW).trackerData = stW.trackerData := by
  split <;> rfl

lemma ifObserve_pipelineErrors (c : Bool) (stW : ExecState) (a b : String) (v : Int) :
    (if c then observeStageLatency stW a b v else stW).sink.pipelineErrors =
      stW.sink.pipelineErrors := by
  split <;> rfl

lemma ifObserve_activeOperations (c : Bool) (stW : ExecState) (a b : String) (v : Int) :
    (if c then observeStageLatency stW a b v else stW).sink.activeOperations =
      stW.sink.activeOperations := by
  split <;> rfl

lemma ifInc_now (c : Bool) (stW : ExecState) (a b : String) :
    (if c then incPipelineErrors stW a b else stW).now = stW.now := by
  split <;> rfl

lemma ifInc_trackerData (c : Bool) (stW : ExecState) (a b : String) :
    (if c then incPipelineErrors stW a b else stW).trackerData = stW.trackerData := by
  split <;> rfl

lemma ifInc_activeOperations (c : Bool) (stW : ExecState) (a b : String) :
    (if c then incPipelineErrors stW a b else stW).sink.activeOperations =
      stW.sink.activeOperations := by
  split <;> rfl

lemma ifInc_pipelineErrors (c : Bool) (stW : ExecState) (a b : String) :
    (if c then incPipelineErrors stW a b else stW).sink.pipelineErrors =
      stW.sink.pipelineErrors ++ (if c then [(a, b)] else []) := by
  split <;> simp [incPipelineErrors]

lemma runPipeline_cons_ok {cfg : ResolvedConfig} {s : PipelineStage α}
    {rest : List (PipelineStage α)} {st st1 : ExecState} {ctx c1 : OperationContext α}
    (h : runStageRaced s.operation s.name s.timeout st ctx = (st1, .ok c1)) :
    BaseOrchestrator.runPipeline cfg (s :: rest) st ctx =
      BaseOrchestrator.runPipeline cfg rest
        (if cfg.enableMetrics then observeStageLatency st1 cfg.name s.name (st1.now - st.now)
         else st1) c1 := by
  simp only [BaseOrchestrator.runPipeline, h]

lemma runPipeline_cons_err {cfg : ResolvedConfig} {s : PipelineStage α}
    {rest : List (PipelineStage α)} {st st1 : ExecState} {ctx : OperationContext α}
    {e : Thrown}
    (h : runStageRaced s.operation s.name s.timeout st ctx = (st1, .error e)) :
    BaseOrchestrator.runPipeline cfg (s :: rest) st ctx =
      (if s.critical.getD false then
        ((if cfg.enableMetrics then incPipelineErrors st1 cfg.name s.name else st1),
          .error (.errVal { message := criticalStageMsg s.name e.msgOf }))
      else
        BaseOrchestrator.runPipeline cfg rest
          (if cfg.enableMetrics then incPipelineErrors st1 cfg.name s.name else st1)
          { ctx with errors := ctx.errors ++ [e.toError] }) := by
  simp only [BaseOrchestrator.runPipeline, h]

lemma runPipeline_append_ok (cfg : ResolvedConfig) (l1 l2 : List (PipelineStage α)) :
    ∀ (st st1 : ExecState) (ctx c1 : OperationContext α),
      BaseOrchestrator.runPipeline cfg l1 st ctx = (st1, .ok c1) →
      BaseOrchestrator.runPipeline cfg (l1 ++ l2) st ctx =
        BaseOrchestrator.runPipeline cfg l2 st1 c1 := by
  induction l1 with
  | nil =>
      intro st st1 ctx c1 h
      simp only [BaseOrchestrator.runPipeline, Prod.mk.injEq, Except.ok.injEq] at h
      rw [List.nil_append, h.1, h.2]
  | cons s rest ih =>
      intro st st1 ctx c1 h
      rw [List.cons_append]
      rcases hR : runStageRaced s.operation s.name s.timeout st ctx with ⟨stx, out⟩
      cases out with
      | ok cnext =>
          rw [runPipeline_cons_ok hR] at h ⊢
          exact ih _ _ _ _ h
      | error e =>
          rw [runPipeline_cons_err hR] at h ⊢
          by_cases hc : s.critical.getD false
          · rw [if_pos hc] at h
            exact absurd (congrArg Prod.snd h) (by simp)
          · rw [if_neg hc] at h ⊢
            exact ih _ _ _ _ h

lemma runPipeline_append_err (cfg : ResolvedConfig) (l1 l2 : List (PipelineStage α)) :
    ∀ (st st1 : ExecState) (ctx : OperationContext α) (e : Thrown),
      BaseOrchestrator.runPipeline cfg l1 st ctx = (st1, .error e) →
      BaseOrchestrator.runPipeline cfg (l1 ++ l2) st ctx = (st1, .error e) := by
  induction l1 with
  | nil =>
      intro st st1 ctx e h
      simp only [BaseOrchestrator.runPipeline, Prod.mk.injEq] at h
      exact absurd h.2 (by simp)
  | cons s rest ih =>
      intro st st1 ctx e h
      rw [List.cons_append]
      rcases hR : runStageRaced s.operation s.name s.timeout st ctx with ⟨stx, out⟩
      cases out with
      | ok cnext =>
          rw [runPipeline_cons_ok hR] at h ⊢
          exact ih _ _ _ _ h
      | error e2 =>
          rw [runPipeline_cons_err hR] at h ⊢
          by_cases hc : s.critical.getD false
          · rw [if_pos hc] at h ⊢
            exact h
          · rw [if_neg hc] at h ⊢
            exact ih _ _ _ _ h

lemma runPipeline_activeOps (cfg : ResolvedConfig) (l : List (PipelineStage α)) :
    ∀ (st : ExecState) (ctx : OperationContext α),
      ((BaseOrchestrator.runPipeline cfg l st ctx).1).sink.activeOperations =
        st.sink.activeOperations := by
  induction l with
  | nil => intro st ctx; rfl
  | cons s rest ih =>
      intro st ctx
      rcases hR : runStageRaced s.operation s.name s.timeout st ctx with ⟨stx, out⟩
      have hsink : stx.sink = st.sink := by
        have h2 := runStageRaced_fst_sink s.operation s.name s.timeout st ctx
        rw [hR] at h2
        exact h2
      cases out with
      | ok cnext =>
          rw [runPipeline_cons_ok hR, ih]
          by_cases hm : cfg.enableMetrics <;> simp [hm, observeStageLatency, hsink]
      | error e =>
          rw [runPipeline_cons_err hR]
          by_cases hc : s.critical.getD false
          · rw [if_pos hc]
            by_cases hm : cfg.enableMetrics <;> simp [hm, incPipelineErrors, hsink]
          · rw [if_neg hc, ih]
            by_cases hm : cfg.enableMetrics <;> simp [hm, incPipelineErrors, hsink]

lemma runPipeline_sink_off (cfg : ResolvedConfig) (hm : cfg.enableMetrics = false)
    (l : List (PipelineStage α)) :
    ∀ (st : ExecState) (ctx : OperationContext α),
      ((BaseOrchestrator.runPipeline cfg l st ctx).1).sink = st.sink := by
  induction l with
  | nil => intro st ctx; rfl
  | cons s rest ih =>
      intro st ctx
      rcases hR : runStageRaced s.operation s.name s.timeout st ctx with ⟨stx, out⟩
      have hsink : stx.sink = st.sink := by
        have h2 := runStageRaced_fst_sink s.operation s.name s.timeout st ctx
        rw [hR] at h2
        exact h2
      cases out with
      | ok cnext =>
          rw [runPipeline_cons_ok hR]
          simp only [hm, Bool.false_eq_true, if_false]
          rw [ih]
          exact hsink
      | error e =>
          rw [runPipeline_cons_err hR]
          by_cases hc : s.critical.getD false
          · rw [if_pos hc]
            simp only [hm, Bool.false_eq_true, if_false]
            exact hsink
          · rw [if_neg hc]
            simp only [hm, Bool.false_eq_true, if_false]
            rw [ih]
            exact hsink

lemma runPipeline_ok_perfTracker (cfg : ResolvedConfig) (l : List (PipelineStage α)) :
    ∀ (st st' : ExecState) (ctx c' : OperationContext α),
      (∀ s ∈ l, ∀ c c2, s.operation.run c = .ok c2 → c2.perfTracker = c.perfTracker) →
      BaseOrchestrator.runPipeline cfg l st ctx = (st', .ok c') →
      c'.perfTracker = ctx.perfTracker := by
  induction l with
  | nil =>
      intro st st' ctx c' _ h
      simp only [BaseOrchestrator.runPipeline, Prod.mk.injEq, Except.ok.injEq] at h
      rw [← h.2]
  | cons s rest ih =>
      intro st st' ctx c' hall h
      rcases hR : runStageRaced s.operation s.name s.timeout st ctx with ⟨stx, out⟩
      cases out with
      | ok cnext =>
          rw [runPipeline_cons_ok hR] at h
          have h1 := ih _ _ _ _ (fun s2 hs2 => hall s2 (by simp [hs2])) h
          have h2 := hall s (by simp) ctx cnext (runStageRaced_ok_run hR)
          rw [h1, h2]
      | error e =>
          rw [runPipeline_cons_err hR] at h
          by_cases hc : s.critical.getD false
          · rw [if_pos hc] at h
            exact absurd (congrArg Prod.snd h) (by simp)
          · rw [if_neg hc] at h
            have h1 := ih _ _ _ _ (fun s2 hs2 => hall s2 (by simp [hs2])) h
            simpa using h1

lemma runPipeline_allOk (cfg : ResolvedConfig) (l : List (PipelineStage α)) :
    ∀ (st : ExecState) (ctx : OperationContext α),
      (∀ s ∈ l, GoodStage s) →
      ∃ st' ctx',
        BaseOrchestrator.runPipeline cfg l st ctx = (st', .ok ctx') ∧
        ctx'.errors = ctx.errors ∧ ctx'.perfTracker = ctx.perfTracker ∧
        st'.now = st.now + (costSum l : Int) ∧
        st'.trackerData = trackOkList ctx.perfTracker st.trackerData l ∧
        st'.sink.pipelineErrors = st.sink.pipelineErrors ∧
        st'.sink.activeOperations = st.sink.activeOperations := by
  induction l with
  | nil =>
      intro st ctx _
      exact ⟨st, ctx, rfl, rfl, rfl, by simp [costSum], rfl, rfl, rfl⟩
  | cons s rest ih =>
      intro st ctx hall
      obtain ⟨hTO, hrun⟩ := hall s (by simp)
      obtain ⟨c1, hc1, herr, htr⟩ := hrun ctx
      have hR : runStageRaced s.operation s.name s.timeout st ctx =
          ({ st with
              now := st.now + (s.operation.cost : Int)
              trackerData :=
                trackPoint ctx.perfTracker st.trackerData s.name (s.operation.cost : Int) },
            .ok c1) := by
        rw [runStageRaced_eq_wrap hTO, wrap_run_ok s.name st hc1]
      rw [runPipeline_cons_ok hR]
      obtain ⟨st', ctx', hEq, hErr, hTr, hNow, hTrack, hPE, hAO⟩ :=
        ih _ c1 (fun s2 hs2 => hall s2 (by simp [hs2]))
      refine ⟨st', ctx', hEq, hErr.trans herr, hTr.trans htr, ?_, ?_, ?_, ?_⟩
      · rw [hNow, ifObserve_now]
        simp only [costSum_cons]
        push_cast
        ring
      · rw [hTrack, htr, ifObserve_trackerData, trackOkList_cons]
      · rw [hPE, ifObserve_pipelineErrors]
      · rw [hAO, ifObserve_activeOperations]

lemma runPipeline_failNoncritical (cfg : ResolvedConfig) (A B : List (PipelineStage α))
    (k : PipelineStage α) (e : Thrown)
    (hgoodA : ∀ s ∈ A, GoodStage s) (hgoodB : ∀ s ∈ B, GoodStage s)
    (hkTO : k.timesOut = false) (hkfail : ∀ c, k.operation.run c = .error e)
    (hkcrit : k.critical.getD false = false) (st : ExecState) (ctx : OperationContext α) :
    ∃ st' ctx',
      BaseOrchestrator.runPipeline cfg (A ++ k :: B) st ctx = (st', .ok ctx') ∧
      ctx'.errors = ctx.errors ++ [e.toError] ∧
      ctx'.perfTracker = ctx.perfTracker ∧
      st'.now = st.now + ((costSum A + k.operation.cost + costSum B : Nat) : Int) ∧
      st'.trackerData =
        trackOkList ctx.perfTracker
          (trackPoint ctx.perfTracker (trackOkList ctx.perfTracker st.trackerData A)
            (k.name ++ "_error") (k.operation.cost : Int)) B ∧
      st'.sink.pipelineErrors =
        st.sink.pipelineErrors ++ (if cfg.enableMetrics then [(cfg.name, k.name)] else []) ∧
      st'.sink.activeOperations = st.sink.activeOperations := by
  obtain ⟨stA, ctxA, hAeq, hAerr, hAtr, hAnow, hAtrack, hAPE, hAAO⟩ :=
    runPipeline_allOk cfg A st ctx hgoodA
  have hstep := runPipeline_append_ok cfg A (k :: B) st stA ctx ctxA hAeq
  have hR : runStageRaced k.operation k.name k.timeout stA ctxA =
      ({ stA with
          now := stA.now + (k.operation.cost : Int)
          trackerData :=
            trackPoint ctxA.perfTracker stA.trackerData (k.name ++ "_error")
              (k.operation.cost : Int) },
        .error e) := by
    rw [runStageRaced_eq_wrap hkTO, wrap_run_error k.name stA (hkfail ctxA)]
  rw [runPipeline_cons_err hR, if_neg (by simp [hkcrit])] at hstep
  obtain ⟨st', ctx', hBeq, hBerr, hBtr, hBnow, hBtrack, hBPE, hBAO⟩ :=
    runPipeline_allOk cfg B _ _ hgoodB
  rw [hBeq] at hstep
  refine ⟨st', ctx', hstep, ?_, ?_, ?_, ?_, ?_, ?_⟩
  · rw [hBerr]
    simp only [hAerr]
  · rw [hBtr]
    simp only [hAtr]
  · rw [hBnow, ifInc_now]
    simp only [hAnow]
    push_cast
    ring
  · rw [hBtrack, ifInc_trackerData]
    simp only [hAtr, hAtrack]
  · rw [hBPE, ifInc_pipelineErrors]
    simp only [hAPE]
  · rw [hBAO, ifInc_activeOperations]
    simp only [hAAO]

lemma runPipeline_failCritical (cfg : ResolvedConfig) (A B : List (PipelineStage α))
    (k : PipelineStage α) (e : Thrown)
    (hgoodA : ∀ s ∈ A, GoodStage s)
    (hkTO : k.timesOut = false) (hkfail : ∀ c, k.operation.run c = .error e)
    (hkcrit : k.critical = some true) (st : ExecState) (ctx : OperationContext α) :
    ∃ st',
      BaseOrchestrator.runPipeline cfg (A ++ k :: B) st ctx =
        (st', .error (.errVal { message := criticalStageMsg k.name e.msgOf })) ∧
      st'.now = st.now + ((costSum A + k.operation.cost : Nat) : Int) ∧
      st'.trackerData =
        trackPoint ctx.perfTracker (trackOkList ctx.perfTracker st.trackerData A)
          (k.name ++ "_error") (k.operation.cost : Int) ∧
      st'.sink.pipelineErrors =
        st.sink.pipelineErrors ++ (if cfg.enableMetrics then [(cfg.name, k.name)] else []) ∧
      st'.sink.activeOperations = st.sink.activeOperations := by
  obtain ⟨stA, ctxA, hAeq, hAerr, hAtr, hAnow, hAtrack, hAPE, hAAO⟩ :=
    runPipeline_allOk cfg A st ctx hgoodA
  have hstep := runPipeline_append_ok cfg A (k :: B) st stA ctx ctxA hAeq
  have hR : runStageRaced k.operation k.name k.timeout stA ctxA =
      ({ stA with
          now := stA.now + (k.operation.cost : Int)
          trackerData :=
            trackPoint ctxA.perfTracker stA.trackerData (k.name ++ "_error")
              (k.operation.cost : Int) },
        .error e) := by
    rw [runStageRaced_eq_wrap hkTO, wrap_run_error k.name stA (hkfail ctxA)]
  rw [runPipeline_cons_err hR, if_pos (by simp [hkcrit])] at hstep
  refine ⟨_, hstep, ?_, ?_, ?_, ?_⟩
  · rw [ifInc_now]
    simp only [hAnow]
    push_cast
    ring
  · rw [ifInc_trackerData]
    simp only [hAtr, hAtrack]
  · rw [ifInc_pipelineErrors]
    simp only [hAPE]
  · rw [ifInc_activeOperations]
    simp only [hAAO]

lemma trackerGetMetrics_congr {st1 st2 : ExecState} (h : st1.trackerData = st2.trackerData)
    (r : TrackerRef) : trackerGetMetrics st1 r = trackerGetMetrics st2 r := by
  cases r <;> simp [trackerGetMetrics, h]

lemma catchReturn_snd (cfg : ResolvedConfig) (t : Int) (ref : Option TrackerRef)
    (e : Thrown) (st : ExecState) :
    (catchReturn (β := β) cfg t ref e st).2 =
      { success := false, data := none, error := some e.toError,
        duration := st.now - t, metrics := ref.map (trackerGetMetrics st) } := by
  unfold catchReturn
  have h : ∀ stX : ExecState, stX.trackerData = st.trackerData →
      ref.map (trackerGetMetrics stX) = ref.map (trackerGetMetrics st) := by
    intro stX hX
    cases ref with
    | none => rfl
    | some r => simp [trackerGetMetrics_congr hX r]
  rw [h _ (by split <;> simp [gaugeDec, incPipelineErrors, observePipelineDuration])]

lemma catchReturn_fst_trackerData (cfg : ResolvedConfig) (t : Int)
    (ref : Option TrackerRef) (e : Thrown) (st : ExecState) :
    (catchReturn (β := β) cfg t ref e st).1.trackerData = st.trackerData := by
  unfold catchReturn
  split <;> simp [gaugeDec, incPipelineErrors, observePipelineDuration]

lemma catchReturn_fst_activeOperations (cfg : ResolvedConfig) (t : Int)
    (ref : Option TrackerRef) (e : Thrown) (st : ExecState) :
    (catchReturn (β := β) cfg t ref e st).1.sink.activeOperations =
      st.sink.activeOperations ++ (if cfg.enableMetrics then [(cfg.name, -1)] else []) := by
  unfold catchReturn
  split <;> simp [gaugeDec, incPipelineErrors, observePipelineDuration]

lemma catchReturn_fst_pipelineErrors (cfg : ResolvedConfig) (t : Int)
    (ref : Option TrackerRef) (e : Thrown) (st : ExecState) :
    (catchReturn (β := β) cfg t ref e st).1.sink.pipelineErrors =
      st.sink.pipelineErrors ++ (if cfg.enableMetrics then [(cfg.name, "unknown")] else []) := by
  unfold catchReturn
  split <;> simp [gaugeDec, incPipelineErrors, observePipelineDuration]

lemma catchReturn_fst_sink_off (cfg : ResolvedConfig) (hm : cfg.enableMetrics = false)
    (t : Int) (ref : Option TrackerRef) (e : Thrown) (st : ExecState) :
    (catchReturn (β := β) cfg t ref e st).1.sink = st.sink := by
  unfold catchReturn
  simp [hm]

lemma successReturn_snd (cfg : ResolvedConfig) (t : Int) (stD : ExecState)
    (ctx2 : OperationContext α) (r : β) :
    (successReturn cfg t stD ctx2 r).2 =
      { success := true, data := some r, error := none,
        duration := stD.now - t, metrics := ctx2.perfTracker.map (trackerGetMetrics stD) } := by
  unfold successReturn
  have h : ∀ stX : ExecState, stX.trackerData = stD.trackerData →
      ctx2.perfTracker.map (trackerGetMetrics stX) =
        ctx2.perfTracker.map (trackerGetMetrics stD) := by
    intro stX hX
    cases ctx2.perfTracker with
    | none => rfl
    | some r => simp [trackerGetMetrics_congr hX r]
  rw [h _ (by split <;> simp [gaugeDec, observePipelineDuration])]

lemma successReturn_fst_activeOperations (cfg : ResolvedConfig) (t : Int) (stD : ExecState)
    (ctx2 : OperationContext α) (r : β) :
    (successReturn cfg t stD ctx2 r).1.sink.activeOperations =
      stD.sink.activeOperations ++ (if cfg.enableMetrics then [(cfg.name, -1)] else []) := by
  unfold successReturn
  split <;> simp [gaugeDec, observePipelineDuration]

lemma successReturn_fst_pipelineErrors (cfg : ResolvedConfig) (t : Int) (stD : ExecState)
    (ctx2 : OperationContext α) (r : β) :
    (successReturn cfg t stD ctx2 r).1.sink.pipelineErrors = stD.sink.pipelineErrors := by
  unfold successReturn
  split <;> simp [gaugeDec, observePipelineDuration]

lemma successReturn_fst_sink_off (cfg : ResolvedConfig) (hm : cfg.enableMetrics = false)
    (t : Int) (stD : ExecState) (ctx2 : OperationContext α) (r : β) :
    (successReturn cfg t stD ctx2 r).1.sink = stD.sink := by
  unfold successReturn
  simp [hm]

lemma preStB_now (o : BaseOrchestrator γ α β) (st0 : ExecState) :
    (preStB o st0).now = st0.now + (o.initCost : Int) := by
  unfold preStB
  split <;> simp [gaugeInc]

lemma preStB_trackerData (o : BaseOrchestrator γ α β) (st0 : ExecState) :
    (preStB o st0).trackerData = st0.trackerData := by
  unfold preStB
  split <;> simp [gaugeInc]

lemma preStB_activeOperations (o : BaseOrchestrator γ α β) (st0 : ExecState) :
    (preStB o st0).sink.activeOperations =
      st0.sink.activeOperations ++
        (if o.config.enableMetrics then [(o.config.name, 1)] else []) := by
  unfold preStB
  split <;> simp [gaugeInc]

lemma preStB_pipelineErrors (o : BaseOrchestrator γ α β) (st0 : ExecState) :
    (preStB o st0).sink.pipelineErrors = st0.sink.pipelineErrors := by
  unfold preStB
  split <;> simp [gaugeInc]

lemma preStB_sink_off (o : BaseOrchestrator γ α β) (hm : o.config.enableMetrics = false)
    (st0 : ExecState) : (preStB o st0).sink = st0.sink := by
  unfold preStB
  simp [hm]

lemma freshTrackerStore_now (cfg : ResolvedConfig) (ctx : OperationContext α)
    (st : ExecState) : (freshTrackerStore cfg ctx st).now = st.now := by
  unfold freshTrackerStore
  split <;> rfl

lemma freshTrackerStore_sink (cfg : ResolvedConfig) (ctx : OperationContext α)
    (st : ExecState) : (freshTrackerStore cfg ctx st).sink = st.sink := by
  unfold freshTrackerStore
  split <;> rfl

lemma freshTrackerStore_on (cfg : ResolvedConfig) {ctx : OperationContext α}
    (hm : cfg.enableMetrics = true) (htr : ctx.perfTracker = none) (st : ExecState) :
    (freshTrackerStore cfg ctx st).trackerData = [] := by
  simp [freshTrackerStore, hm, htr]

lemma attachTracker_on (cfg : ResolvedConfig) {ctx : OperationContext α}
    (hm : cfg.enableMetrics = true) (htr : ctx.perfTracker = none) :
    attachTracker cfg ctx = { ctx with perfTracker := some .defaultTracker } := by
  simp [attachTracker, hm, htr]

lemma attachTracker_off (cfg : ResolvedConfig) {ctx : OperationContext α}
    (hm : cfg.enableMetrics = false) (htr : ctx.perfTracker = none) :
    attachTracker cfg ctx = { ctx with perfTracker := some .nullTracker } := by
  simp [attachTracker, hm, htr]

lemma runPipelineWithTimeout_of_le {cfg : ResolvedConfig}
    {pipeline : List (PipelineStage α)} {st st1 : ExecState} {ctx : OperationContext α}
    {out : Except Thrown (OperationContext α)}
    (h : BaseOrchestrator.runPipeline cfg pipeline st ctx = (st1, out))
    (hle : st1.now - st.now ≤ (cfg.timeout : Int)) :
    BaseOrchestrator.runPipelineWithTimeout cfg st ctx pipeline = (st1, out) := by
  unfold BaseOrchestrator.runPipelineWithTimeout
  rw [h]
  exact if_neg (not_lt.mpr hle)

lemma runPipelineWithTimeout_fst (cfg : ResolvedConfig)
    (pipeline : List (PipelineStage α)) (st : ExecState) (ctx : OperationContext α) :
    (BaseOrchestrator.runPipelineWithTimeout cfg st ctx pipeline).1 =
      (BaseOrchestrator.runPipeline cfg pipeline st ctx).1 := by
  unfold BaseOrchestrator.runPipelineWithTimeout
  split <;> rfl

lemma recordEntry_fresh (m : List (String × Int)) (k : String) (v : Int)
    (h : k ∉ m.map Prod.fst) : recordEntry m k v = m ++ [(k, v)] := by
  unfold recordEntry
  rw [if_neg]
  intro hc
  rw [List.any_eq_true] at hc
  obtain ⟨p, hp, hpk⟩ := hc
  exact h (List.mem_map.mpr ⟨p, hp, by simpa using hpk⟩)

lemma trackOkList_default (l : List (PipelineStage α)) :
    ∀ m, (l.map PipelineStage.name).Nodup → (∀ s ∈ l, s.name ∉ m.map Prod.fst) →
      trackOkList (some .defaultTracker) m l =
        m ++ l.map (fun s => (s.name, (s.operation.cost : Int))) := by
  induction l with
  | nil => intro m _ _; simp [trackOkList]
  | cons s rest ih =>
      intro m hnd hfresh
      rw [trackOkList_cons]
      have hpt : trackPoint (some .defaultTracker) m s.name (s.operation.cost : Int) =
          m ++ [(s.name, (s.operation.cost : Int))] :=
        recordEntry_fresh m s.name _ (hfresh s (by simp))
      rw [hpt]
      rw [ih (m ++ [(s.name, (s.operation.cost : Int))]) (by simpa using hnd.of_cons) ?_]
      · simp
      · intro s2 hs2
        simp only [List.map_append, List.mem_append, List.map_cons, List.map_nil,
          List.mem_singleton, not_or]
        constructor
        · exact hfresh s2 (by simp [hs2])
        · have hne : s2.name ∈ rest.map PipelineStage.name := List.mem_map.mpr ⟨s2, hs2, rfl⟩
          have hnotin : s.name ∉ rest.map PipelineStage.name := by
            simp only [List.map_cons, List.nodup_cons] at hnd
            exact hnd.1
          intro hcontra
          exact hnotin (hcontra ▸ hne)

lemma gaugeValue_append (g1 g2 : List (String × Int)) (k : String) :
    gaugeValue (g1 ++ g2) k = gaugeValue g1 k + gaugeValue g2 k := by
  simp [gaugeValue, List.filter_append]

lemma runPipelineWithTimeout_ok_inv {cfg : ResolvedConfig}
    {pipeline : List (PipelineStage α)} {st stD : ExecState} {ctx ctx2 : OperationContext α}
    (h : BaseOrchestrator.runPipelineWithTimeout cfg st ctx pipeline = (stD, .ok ctx2)) :
    BaseOrchestrator.runPipeline cfg pipeline st ctx = (stD, .ok ctx2) := by
  unfold BaseOrchestrator.runPipelineWithTimeout at h
  split at h
  · exact absurd (congrArg Prod.snd h) (by simp)
  · exact h

lemma execute_init_error (o : BaseOrchestrator γ α β) (input : γ) (st0 : ExecState)
    {e : Thrown} (h : o.initializeContext input = .error e) :
    BaseOrchestrator.execute o input st0 =
      catchReturn o.config st0.now none e (preStB o st0) := by
  unfold BaseOrchestrator.execute
  rw [h]

lemma execute_pipeline_error (o : BaseOrchestrator γ α β) (input : γ) (st0 : ExecState)
    {ctx0 : OperationContext α} {stD : ExecState} {e : Thrown}
    (h : o.initializeContext input = .ok ctx0)
    (hP : BaseOrchestrator.runPipelineWithTimeout o.config
        (freshTrackerStore o.config ctx0 (preStB o st0)) (attachTracker o.config ctx0)
        o.getPipeline = (stD, .error e)) :
    BaseOrchestrator.execute o input st0 =
      catchReturn o.config st0.now (attachTracker o.config ctx0).perfTracker e stD := by
  unfold BaseOrchestrator.execute
  simp only [h, hP]

lemma execute_build_error (o : BaseOrchestrator γ α β) (input : γ) (st0 : ExecState)
    {ctx0 ctx2 : OperationContext α} {stD : ExecState} {e : Thrown}
    (h : o.initializeContext input = .ok ctx0)
    (hP : BaseOrchestrator.runPipelineWithTimeout o.config
        (freshTrackerStore o.config ctx0 (preStB o st0)) (attachTracker o.config ctx0)
        o.getPipeline = (stD, .ok ctx2))
    (hB : o.buildResult ctx2 = .error e) :
    BaseOrchestrator.execute o input st0 =
      catchReturn o.config st0.now ctx2.perfTracker e stD := by
  unfold BaseOrchestrator.execute
  simp only [h, hP, hB]

lemma execute_success (o : BaseOrchestrator γ α β) (input : γ) (st0 : ExecState)
    {ctx0 ctx2 : OperationContext α} {stD : ExecState} {r : β}
    (h : o.initializeContext input = .ok ctx0)
    (hP : BaseOrchestrator.runPipelineWithTimeout o.config
        (freshTrackerStore o.config ctx0 (preStB o st0)) (attachTracker o.config ctx0)
        o.getPipeline = (stD, .ok ctx2))
    (hB : o.buildResult ctx2 = .ok r) :
    BaseOrchestrator.execute o input st0 = successReturn o.config st0.now stD ctx2 r := by
  unfold BaseOrchestrator.execute
  simp only [h, hP, hB]

/-- C5: execute is total in the model (it never rejects) and always returns
a well-formed OrchestratorResult: when success is true the error field is
absent and the data field is present; when success is false the data field
is absent and the error field holds an Error value. This covers every
branch of execute: initialization throw, critical-stage failure, stage or
pipeline timeout, result-building throw, and thrown values that are not
Error instances. -/
theorem claimC5_result_wellformed (o : BaseOrchestrator γ α β) (input : γ)
    (st0 : ExecState) :
    ((BaseOrchestrator.execute o input st0).2.data).isSome =
        (BaseOrchestrator.execute o input st0).2.success ∧
      ((BaseOrchestrator.execute o input st0).2.error).isSome =
        !(BaseOrchestrator.execute o input st0).2.success := by
  cases hinit : o.initializeContext input with
  | error e =>
      rw [execute_init_error o input st0 hinit, catchReturn_snd]
      simp
  | ok ctx0 =>
      rcases hP : BaseOrchestrator.runPipelineWithTimeout o.config
          (freshTrackerStore o.config ctx0 (preStB o st0)) (attachTracker o.config ctx0)
          o.getPipeline with ⟨stD, out⟩
      cases out with
      | error e =>
          rw [execute_pipeline_error o input st0 hinit hP, catchReturn_snd]
          simp
      | ok ctx2 =>
          cases hB : o.buildResult ctx2 with
          | error e =>
              rw [execute_build_error o input st0 hinit hP hB, catchReturn_snd]
              simp
          | ok r =>
              rw [execute_success o input st0 hinit hP hB, successReturn_snd]
              simp

/-- C10: when the context initializer throws, execute returns a failed
result whose metrics field is absent (no context, hence no tracker, ever
existed), whose duration field is still populated with the elapsed time,
and whose error field carries the thrown value coerced to an Error. -/
theorem claimC10_init_throw (o : BaseOrchestrator γ α β) (input : γ) (st0 : ExecState)
    {e : Thrown} (hinit : o.initializeContext input = .error e) :
    (BaseOrchestrator.execute o input st0).2.success = false ∧
    (BaseOrchestrator.execute o input st0).2.metrics = none ∧
    (BaseOrchestrator.execute o input st0).2.duration = (o.initCost : Int) ∧
    (BaseOrchestrator.execute o input st0).2.error = some e.toError := by
  rw [execute_init_error o input st0 hinit, catchReturn_snd]
  refine ⟨rfl, rfl, ?_, rfl⟩
  simp [preStB_now]

/-- Witness for C10 on a concrete orchestrator whose initializer throws a
non-Error value after 7 ms. -/
theorem claimC10_init_throw_witness :
    demoOrchInitFail.initializeContext () = .error (.nonError "bad input") ∧
    ((BaseOrchestrator.execute demoOrchInitFail () st0).2.success = false ∧
      (BaseOrchestrator.execute demoOrchInitFail () st0).2.metrics = none ∧
      (BaseOrchestrator.execute demoOrchInitFail () st0).2.duration =
        ((7 : Nat) : Int) ∧
      (BaseOrchestrator.execute demoOrchInitFail () st0).2.error =
        some (Thrown.nonError "bad input").toError) :=
  ⟨rfl, claimC10_init_throw demoOrchInitFail () st0 rfl⟩

/-- C7: with metrics enabled, every call to execute appends exactly one
increment of the active-operations gauge at the start and exactly one
decrement when the call resolves, for every outcome, so the gauge value
for the service label is unchanged by a completed call. -/
theorem claimC7_gauge_balanced (o : BaseOrchestrator γ α β) (input : γ) (st0 : ExecState)
    (hm : o.config.enableMetrics = true) :
    (BaseOrchestrator.execute o input st0).1.sink.activeOperations =
        st0.sink.activeOperations ++ [(o.config.name, 1), (o.config.name, -1)] ∧
      gaugeValue (BaseOrchestrator.execute o input st0).1.sink.activeOperations o.config.name =
        gaugeValue st0.sink.activeOperations o.config.name := by
  have hAO : (BaseOrchestrator.execute o input st0).1.sink.activeOperations =
      st0.sink.activeOperations ++ [(o.config.name, 1), (o.config.name, -1)] := by
    cases hinit : o.initializeContext input with
    | error e =>
        rw [execute_init_error o input st0 hinit, catchReturn_fst_activeOperations,
          preStB_activeOperations]
        simp [hm]
    | ok ctx0 =>
        rcases hP : BaseOrchestrator.runPipelineWithTimeout o.config
            (freshTrackerStore o.config ctx0 (preStB o st0)) (attachTracker o.config ctx0)
            o.getPipeline with ⟨stD, out⟩
        have hstD : stD.sink.activeOperations =
            st0.sink.activeOperations ++ [(o.config.name, 1)] := by
          have h1 := congrArg Prod.fst hP
          rw [runPipelineWithTimeout_fst] at h1
          have h2 := runPipeline_activeOps o.config o.getPipeline
            (freshTrackerStore o.config ctx0 (preStB o st0)) (attachTracker o.config ctx0)
          rw [h1] at h2
          rw [h2, freshTrackerStore_sink, preStB_activeOperations]
          simp [hm]
        cases out with
        | error e =>
            rw [execute_pipeline_error o input st0 hinit hP,
              catchReturn_fst_activeOperations, hstD]
            simp [hm]
        | ok ctx2 =>
            cases hB : o.buildResult ctx2 with
            | error e =>
                rw [execute_build_error o input st0 hinit hP hB,
                  catchReturn_fst_activeOperations, hstD]
                simp [hm]
            | ok r =>
                rw [execute_success o input st0 hinit hP hB,
                  successReturn_fst_activeOperations, hstD]
                simp [hm]
  refine ⟨hAO, ?_⟩
  rw [hAO, gaugeValue_append]
  simp [gaugeValue]

/-- Witness for C7 on a concrete metrics-enabled orchestrator. -/
theorem claimC7_gauge_balanced_witness :
    (mkOrch [stageA]).config.enableMetrics = true ∧
    ((BaseOrchestrator.execute (mkOrch [stageA]) () st0).1.sink.activeOperations =
        st0.sink.activeOperations ++ [("svc", 1), ("svc", -1)] ∧
      gaugeValue (BaseOrchestrator.execute (mkOrch [stageA]) () st0).1.sink.activeOperations
          "svc" =
        gaugeValue st0.sink.activeOperations "svc") :=
  ⟨by decide, claimC7_gauge_balanced (mkOrch [stageA]) () st0 (by decide)⟩

/-- C9: with metrics disabled and an initialized context carrying no
tracker, no Metrics Sink instrument is updated at any point of the call
(the whole sink is unchanged for every outcome), a NullPerformanceTracker
is attached, and the returned metrics field is the empty map rather than
absent. Stage operations are assumed not to detach or replace the tracker
reference they received. -/
theorem claimC9_metrics_disabled (o : BaseOrchestrator γ α β) (input : γ) (st0 : ExecState)
    (hm : o.config.enableMetrics = false) {ctx0 : OperationContext α}
    (hinit : o.initializeContext input = .ok ctx0) (htr : ctx0.perfTracker = none)
    (hpres : ∀ s ∈ o.getPipeline, ∀ c c2, s.operation.run c = .ok c2 →
      c2.perfTracker = c.perfTracker) :
    (BaseOrchestrator.execute o input st0).1.sink = st0.sink ∧
    (attachTracker o.config ctx0).perfTracker = some .nullTracker ∧
    (BaseOrchestrator.execute o input st0).2.metrics = some [] := by
  have hattach : attachTracker o.config ctx0 =
      { ctx0 with perfTracker := some .nullTracker } := attachTracker_off o.config hm htr
  rcases hP : BaseOrchestrator.runPipelineWithTimeout o.config
      (freshTrackerStore o.config ctx0 (preStB o st0)) (attachTracker o.config ctx0)
      o.getPipeline with ⟨stD, out⟩
  have hstDsink : stD.sink = st0.sink := by
    have h1 := congrArg Prod.fst hP
    rw [runPipelineWithTimeout_fst] at h1
    have h2 := runPipeline_sink_off o.config hm o.getPipeline
      (freshTrackerStore o.config ctx0 (preStB o st0)) (attachTracker o.config ctx0)
    rw [h1] at h2
    rw [h2, freshTrackerStore_sink, preStB_sink_off o hm]
  cases out with
  | error e =>
      rw [execute_pipeline_error o input st0 hinit hP]
      refine ⟨?_, by rw [hattach], ?_⟩
      · rw [catchReturn_fst_sink_off o.config hm, hstDsink]
      · rw [catchReturn_snd, hattach]
        simp [trackerGetMetrics]
  | ok ctx2 =>
      have hctx2 : ctx2.perfTracker = some .nullTracker := by
        have h3 := runPipelineWithTimeout_ok_inv hP
        have h4 := runPipeline_ok_perfTracker o.config o.getPipeline _ _ _ _ hpres h3
        rw [h4, hattach]
      cases hB : o.buildResult ctx2 with
      | error e =>
          rw [execute_build_error o input st0 hinit hP hB]
          refine ⟨?_, by rw [hattach], ?_⟩
          · rw [catchReturn_fst_sink_off o.config hm, hstDsink]
          · rw [catchReturn_snd, hctx2]
            simp [trackerGetMetrics]
      | ok r =>
          rw [execute_success o input st0 hinit hP hB]
          refine ⟨?_, by rw [hattach], ?_⟩
          · rw [successReturn_fst_sink_off o.config hm, hstDsink]
          · rw [successReturn_snd, hctx2]
            simp [trackerGetMetrics]

/-- Witness for C9 on a concrete metrics-disabled orchestrator with two
succeeding stages. -/
theorem claimC9_metrics_disabled_witness :
    demoOrchNoMetrics.config.enableMetrics = false ∧
    ((BaseOrchestrator.execute demoOrchNoMetrics () st0).1.sink = st0.sink ∧
      (attachTracker demoOrchNoMetrics.config demoCtx).perfTracker = some .nullTracker ∧
      (BaseOrchestrator.execute demoOrchNoMetrics () st0).2.metrics = some []) :=
  ⟨by decide,
    claimC9_metrics_disabled demoOrchNoMetrics () st0 (by decide) rfl rfl
      (by
        intro s hs c c2 h
        rcases List.mem_cons.mp hs with rfl | hs2
        · simp only [stageA, idOp] at h
          injection h with h2
          rw [← h2]
        · rcases List.mem_cons.mp hs2 with rfl | hs3
          · simp only [stageC, idOp] at h
            injection h with h2
            rw [← h2]
          · exact absurd hs3 (List.not_mem_nil s))⟩

/-- C2: with metrics enabled, for a non-empty stage list with
pairwise-distinct names, all stages critical, every stage succeeding
(without touching the tracker reference), no timeout firing, and the
result builder succeeding, execute returns success true and a metrics map
with exactly one entry per stage, keyed by the stage name, every recorded
duration non-negative. -/
theorem claimC2_all_success (o : BaseOrchestrator γ α β) (input : γ) (st0 : ExecState)
    (hm : o.config.enableMetrics = true) {ctx0 : OperationContext α}
    (hinit : o.initializeContext input = .ok ctx0) (htr : ctx0.perfTracker = none)
    (hne : o.getPipeline ≠ [])
    (hnodup : (o.getPipeline.map PipelineStage.name).Nodup)
    (hcrit : ∀ s ∈ o.getPipeline, s.critical = some true)
    (hgood : ∀ s ∈ o.getPipeline, GoodStage s)
    (hbudget : (costSum o.getPipeline : Int) ≤ (o.config.timeout : Int))
    (hbuild : ∀ c, ∃ r, o.buildResult c = .ok r) :
    (BaseOrchestrator.execute o input st0).2.success = true ∧
    ∃ m, (BaseOrchestrator.execute o input st0).2.metrics = some m ∧
      m.map Prod.fst = o.getPipeline.map PipelineStage.name ∧
      ∀ p ∈ m, 0 ≤ p.2 := by
  have hattach : attachTracker o.config ctx0 =
      { ctx0 with perfTracker := some .defaultTracker } := attachTracker_on o.config hm htr
  obtain ⟨stD, ctx2, hEq, hErr, hTr, hNow, hTrack, hPE, hAO⟩ :=
    runPipeline_allOk o.config o.getPipeline
      (freshTrackerStore o.config ctx0 (preStB o st0)) (attachTracker o.config ctx0) hgood
  have hle : stD.now - (freshTrackerStore o.config ctx0 (preStB o st0)).now ≤
      (o.config.timeout : Int) := by
    rw [hNow, add_sub_cancel_left]
    exact hbudget
  have hP := runPipelineWithTimeout_of_le hEq hle
  obtain ⟨r, hr⟩ := hbuild ctx2
  have hTrack2 : stD.trackerData =
      o.getPipeline.map (fun s => (s.name, (s.operation.cost : Int))) := by
    rw [hTrack, hattach, freshTrackerStore_on o.config hm htr]
    show trackOkList (some .defaultTracker) [] o.getPipeline = _
    rw [trackOkList_default o.getPipeline [] hnodup (by simp)]
    simp
  have hmet : ctx2.perfTracker = some TrackerRef.defaultTracker := by
    rw [hTr, hattach]
  rw [execute_success o input st0 hinit hP hr, successReturn_snd]
  refine ⟨rfl, o.getPipeline.map (fun s => (s.name, (s.operation.cost : Int))), ?_, ?_, ?_⟩
  · show ctx2.perfTracker.map (trackerGetMetrics stD) = _
    rw [hmet]
    simp only [Option.map_some']
    rw [show trackerGetMetrics stD TrackerRef.defaultTracker = stD.trackerData from rfl,
      hTrack2]
  · simp
  · intro p hp
    obtain ⟨s, hs, rfl⟩ := List.mem_map.mp hp
    simp

/-- Witness for C2 on a concrete two-stage all-critical orchestrator. -/
theorem claimC2_all_success_witness :
    (mkOrch [stageA, stageC]).config.enableMetrics = true ∧
    ((BaseOrchestrator.execute (mkOrch [stageA, stageC]) () st0).2.success = true ∧
      ∃ m, (BaseOrchestrator.execute (mkOrch [stageA, stageC]) () st0).2.metrics = some m ∧
        m.map Prod.fst = (mkOrch [stageA, stageC]).getPipeline.map PipelineStage.name ∧
        ∀ p ∈ m, 0 ≤ p.2) :=
  ⟨by decide,
    claimC2_all_success (mkOrch [stageA, stageC]) () st0 (by decide) rfl rfl
      (List.cons_ne_nil _ _) (by decide) (by decide)
      (by
        intro s hs
        rcases List.mem_cons.mp hs with rfl | hs2
        · exact ⟨rfl, fun c => ⟨c, rfl, rfl, rfl⟩⟩
        · rcases List.mem_cons.mp hs2 with rfl | hs3
          · exact ⟨rfl, fun c => ⟨c, rfl, rfl, rfl⟩⟩
          · exact absurd hs3 (List.not_mem_nil s))
      (by decide) (fun c => ⟨(), rfl⟩)⟩

/-- C3: with metrics enabled, when the stages before k all succeed and
stage k is critical and throws, execute returns success false and the
metrics map holds exactly the plain entries of the stages before k plus
the error-suffixed entry of k; no plain or error-suffixed entry exists for
any stage after k, whose names are assumed distinct from the recorded
keys. -/
theorem claimC3_critical_stops (o : BaseOrchestrator γ α β) (input : γ) (st0 : ExecState)
    (A B : List (PipelineStage α)) (k : PipelineStage α) (e : Thrown)
    (hm : o.config.enableMetrics = true) {ctx0 : OperationContext α}
    (hinit : o.initializeContext input = .ok ctx0) (htr : ctx0.perfTracker = none)
    (hpipe : o.getPipeline = A ++ k :: B)
    (hgoodA : ∀ s ∈ A, GoodStage s)
    (hkcrit : k.critical = some true) (hkTO : k.timesOut = false)
    (hkfail : ∀ c, k.operation.run c = .error e)
    (hndA : (A.map PipelineStage.name).Nodup)
    (hkfresh : (k.name ++ "_error") ∉ A.map PipelineStage.name)
    (hbudget : ((costSum A + k.operation.cost : Nat) : Int) ≤ (o.config.timeout : Int))
    (hBnames : ∀ b ∈ B, b.name ∉ A.map PipelineStage.name ∧
      b.name ≠ k.name ++ "_error" ∧
      (b.name ++ "_error") ∉ A.map PipelineStage.name ∧
      b.name ++ "_error" ≠ k.name ++ "_error") :
    (BaseOrchestrator.execute o input st0).2.success = false ∧
    ∃ m, (BaseOrchestrator.execute o input st0).2.metrics = some m ∧
      m.map Prod.fst = A.map PipelineStage.name ++ [k.name ++ "_error"] ∧
      ∀ b ∈ B, b.name ∉ m.map Prod.fst ∧ (b.name ++ "_error") ∉ m.map Prod.fst := by
  have hattach := attachTracker_on o.config hm htr
  obtain ⟨stD, hEq, hNow, hTrack, hPE, hAO⟩ :=
    runPipeline_failCritical o.config A B k e hgoodA hkTO hkfail hkcrit
      (freshTrackerStore o.config ctx0 (preStB o st0)) (attachTracker o.config ctx0)
  rw [← hpipe] at hEq
  have hle : stD.now - (freshTrackerStore o.config ctx0 (preStB o st0)).now ≤
      (o.config.timeout : Int) := by
    rw [hNow, add_sub_cancel_left]
    exact hbudget
  have hP := runPipelineWithTimeout_of_le hEq hle
  have hTrack2 : stD.trackerData =
      A.map (fun s => (s.name, (s.operation.cost : Int))) ++
        [(k.name ++ "_error", (k.operation.cost : Int))] := by
    rw [hTrack, hattach]
    show trackPoint (some .defaultTracker)
        (trackOkList (some .defaultTracker)
          (freshTrackerStore o.config ctx0 (preStB o st0)).trackerData A)
        (k.name ++ "_error") (k.operation.cost : Int) = _
    rw [freshTrackerStore_on o.config hm htr, trackOkList_default A [] hndA (by simp)]
    show recordEntry ([] ++ A.map fun s => (s.name, (s.operation.cost : Int)))
        (k.name ++ "_error") (k.operation.cost : Int) = _
    rw [List.nil_append, recordEntry_fresh _ _ _ (by simpa using hkfresh)]
  have hmet : (attachTracker o.config ctx0).perfTracker = some TrackerRef.defaultTracker := by
    rw [hattach]
  rw [execute_pipeline_error o input st0 hinit hP, catchReturn_snd]
  have hkeys : (A.map (fun s => (s.name, (s.operation.cost : Int))) ++
      [(k.name ++ "_error", (k.operation.cost : Int))]).map Prod.fst =
        A.map PipelineStage.name ++ [k.name ++ "_error"] := by
    simp
  refine ⟨rfl, A.map (fun s => (s.name, (s.operation.cost : Int))) ++
      [(k.name ++ "_error", (k.operation.cost : Int))], ?_, hkeys, ?_⟩
  · show (attachTracker o.config ctx0).perfTracker.map (trackerGetMetrics stD) = some _
    rw [hmet]
    simp only [Option.map_some']
    rw [show trackerGetMetrics stD TrackerRef.defaultTracker = stD.trackerData from rfl,
      hTrack2]
  · intro b hb
    obtain ⟨h1, h2, h3, h4⟩ := hBnames b hb
    rw [hkeys]
    constructor
    · simp only [List.mem_append, List.mem_singleton]
      rintro (hc | hc)
      · exact h1 hc
      · exact h2 hc
    · simp only [List.mem_append, List.mem_singleton]
      rintro (hc | hc)
      · exact h3 hc
      · exact h4 hc

/-- Witness for C3: a succeeding stage a, then the critical failing stage
k, then a stage c that never runs. -/
theorem claimC3_critical_stops_witness :
    kCrit.critical = some true ∧
    ((BaseOrchestrator.execute (mkOrch [stageA, kCrit, stageC]) () st0).2.success = false ∧
      ∃ m, (BaseOrchestrator.execute (mkOrch [stageA, kCrit, stageC]) () st0).2.metrics =
          some m ∧
        m.map Prod.fst = [stageA].map PipelineStage.name ++ [kCrit.name ++ "_error"] ∧
        ∀ b ∈ [stageC], b.name ∉ m.map Prod.fst ∧
          (b.name ++ "_error") ∉ m.map Prod.fst) :=
  ⟨by decide,
    claimC3_critical_stops (mkOrch [stageA, kCrit, stageC]) () st0 [stageA] [stageC] kCrit
      (.errVal { message := "boom" }) (by decide) rfl rfl rfl
      (by
        intro s hs
        rcases List.mem_cons.mp hs with rfl | hs2
        · exact ⟨rfl, fun c => ⟨c, rfl, rfl, rfl⟩⟩
        · exact absurd hs2 (List.not_mem_nil s))
      (by decide) (by decide) (fun c => rfl) (by decide) (by decide) (by decide)
      (by decide)⟩

lemma execute_noncritical_scenario (o : BaseOrchestrator γ α β) (input : γ) (st0 : ExecState)
    (A B : List (PipelineStage α)) (k : PipelineStage α) (e : Thrown)
    (hm : o.config.enableMetrics = true) {ctx0 : OperationContext α}
    (hinit : o.initializeContext input = .ok ctx0) (htr : ctx0.perfTracker = none)
    (hpipe : o.getPipeline = A ++ k :: B)
    (hgoodA : ∀ s ∈ A, GoodStage s) (hgoodB : ∀ s ∈ B, GoodStage s)
    (hkcrit : k.critical.getD false = false) (hkTO : k.timesOut = false)
    (hkfail : ∀ c, k.operation.run c = .error e)
    (hndA : (A.map PipelineStage.name).Nodup)
    (hndB : (B.map PipelineStage.name).Nodup)
    (hkfreshA : (k.name ++ "_error") ∉ A.map PipelineStage.name)
    (hBfresh : ∀ b ∈ B, b.name ∉ A.map PipelineStage.name ∧ b.name ≠ k.name ++ "_error")
    (hbudget : ((costSum A + k.operation.cost + costSum B : Nat) : Int) ≤
      (o.config.timeout : Int))
    (hbuild : ∀ c, ∃ r, o.buildResult c = .ok r) :
    (BaseOrchestrator.execute o input st0).2.success = true ∧
    (∃ m, (BaseOrchestrator.execute o input st0).2.metrics = some m ∧
      m.map Prod.fst = A.map PipelineStage.name ++ [k.name ++ "_error"] ++
        B.map PipelineStage.name) ∧
    (∀ (st : ExecState) (ctx : OperationContext α), ctx.errors = [] →
      ∃ st' ctx',
        BaseOrchestrator.runPipeline o.config (A ++ k :: B) st ctx = (st', .ok ctx') ∧
        ctx'.errors = [e.toError]) := by
  have hattach := attachTracker_on o.config hm htr
  obtain ⟨stD, ctx2, hEq, hErrs, hTr, hNow, hTrack, hPE, hAO⟩ :=
    runPipeline_failNoncritical o.config A B k e hgoodA hgoodB hkTO hkfail hkcrit
      (freshTrackerStore o.config ctx0 (preStB o st0)) (attachTracker o.config ctx0)
  rw [← hpipe] at hEq
  have hle : stD.now - (freshTrackerStore o.config ctx0 (preStB o st0)).now ≤
      (o.config.timeout : Int) := by
    rw [hNow, add_sub_cancel_left]
    exact hbudget
  have hP := runPipelineWithTimeout_of_le hEq hle
  obtain ⟨r, hr⟩ := hbuild ctx2
  have hkeysA : (A.map (fun s => (s.name, (s.operation.cost : Int)))).map Prod.fst =
      A.map PipelineStage.name := by simp
  have hTrack2 : stD.trackerData =
      (A.map (fun s => (s.name, (s.operation.cost : Int))) ++
        [(k.name ++ "_error", (k.operation.cost : Int))]) ++
        B.map (fun s => (s.name, (s.operation.cost : Int))) := by
    rw [hTrack, hattach]
    show trackOkList (some .defaultTracker)
        (trackPoint (some .defaultTracker)
          (trackOkList (some .defaultTracker)
            (freshTrackerStore o.config ctx0 (preStB o st0)).trackerData A)
          (k.name ++ "_error") (k.operation.cost : Int)) B = _
    rw [freshTrackerStore_on o.config hm htr, trackOkList_default A [] hndA (by simp),
      List.nil_append]
    show trackOkList (some .defaultTracker)
        (recordEntry (A.map fun s => (s.name, (s.operation.cost : Int)))
          (k.name ++ "_error") (k.operation.cost : Int)) B = _
    rw [recordEntry_fresh _ _ _ (by simpa using hkfreshA)]
    rw [trackOkList_default B _ hndB ?_]
    intro b hb
    obtain ⟨hb1, hb2⟩ := hBfresh b hb
    simp only [List.map_append, List.mem_append, List.map_cons, List.map_nil, not_or,
      List.mem_singleton]
    exact ⟨by simpa using hb1, hb2⟩
  have hmet : ctx2.perfTracker = some TrackerRef.defaultTracker := by
    rw [hTr, hattach]
  rw [execute_success o input st0 hinit hP hr, successReturn_snd]
  refine ⟨rfl, ?_, ?_⟩
  · refine ⟨(A.map (fun s => (s.name, (s.operation.cost : Int))) ++
      [(k.name ++ "_error", (k.operation.cost : Int))]) ++
      B.map (fun s => (s.name, (s.operation.cost : Int))), ?_, ?_⟩
    · show ctx2.perfTracker.map (trackerGetMetrics stD) = some _
      rw [hmet]
      simp only [Option.map_some']
      rw [show trackerGetMetrics stD TrackerRef.defaultTracker = stD.trackerData from rfl,
        hTrack2]
    · have hcomp : (Prod.fst ∘ fun s : PipelineStage α =>
          (s.name, (s.operation.cost : Int))) = PipelineStage.name := funext fun s => rfl
      simp [hcomp]
  · intro st ctx hctx
    obtain ⟨st', ctx', hEq', hErrs', _⟩ :=
      runPipeline_failNoncritical o.config A B k e hgoodA hgoodB hkTO hkfail hkcrit st ctx
    exact ⟨st', ctx', hEq', by rw [hErrs', hctx, List.nil_append]⟩

/-- C4: with metrics enabled, a stage k explicitly marked non-critical
whose operation throws, while every other stage succeeds leaving the
error list alone, the initialized context having an empty error list and no
tracker, and the result builder succeeding: execute returns success true,
every stage after k still runs (its plain entry appears in the metrics map
after the error-suffixed entry of k), and the pipeline ends with the error
list holding exactly the one error thrown by k. -/
theorem claimC4_noncritical_continues (o : BaseOrchestrator γ α β) (input : γ)
    (st0 : ExecState) (A B : List (PipelineStage α)) (k : PipelineStage α) (e : Thrown)
    (hm : o.config.enableMetrics = true) {ctx0 : OperationContext α}
    (hinit : o.initializeContext input = .ok ctx0) (htr : ctx0.perfTracker = none)
    (herr0 : ctx0.errors = [])
    (hpipe : o.getPipeline = A ++ k :: B)
    (hgoodA : ∀ s ∈ A, GoodStage s) (hgoodB : ∀ s ∈ B, GoodStage s)
    (hkcrit : k.critical = some false) (hkTO : k.timesOut = false)
    (hkfail : ∀ c, k.operation.run c = .error e)
    (hndA : (A.map PipelineStage.name).Nodup)
    (hndB : (B.map PipelineStage.name).Nodup)
    (hkfreshA : (k.name ++ "_error") ∉ A.map PipelineStage.name)
    (hBfresh : ∀ b ∈ B, b.name ∉ A.map PipelineStage.name ∧ b.name ≠ k.name ++ "_error")
    (hbudget : ((costSum A + k.operation.cost + costSum B : Nat) : Int) ≤
      (o.config.timeout : Int))
    (hbuild : ∀ c, ∃ r, o.buildResult c = .ok r) :
    (BaseOrchestrator.execute o input st0).2.success = true ∧
    (∃ m, (BaseOrchestrator.execute o input st0).2.metrics = some m ∧
      m.map Prod.fst = A.map PipelineStage.name ++ [k.name ++ "_error"] ++
        B.map PipelineStage.name) ∧
    (∀ (st : ExecState) (ctx : OperationContext α), ctx.errors = [] →
      ∃ st' ctx',
        BaseOrchestrator.runPipeline o.config (A ++ k :: B) st ctx = (st', .ok ctx') ∧
        ctx'.errors = [e.toError]) :=
  execute_noncritical_scenario o input st0 A B k e hm hinit htr hpipe hgoodA hgoodB
    (by simp [hkcrit]) hkTO hkfail hndA hndB hkfreshA hBfresh hbudget hbuild

/-- Witness for C4: a succeeding stage a, the explicitly non-critical
failing stage k, then a succeeding stage c. -/
theorem claimC4_noncritical_continues_witness :
    kNon.critical = some false ∧
    ((BaseOrchestrator.execute (mkOrch [stageA, kNon, stageC]) () st0).2.success = true ∧
      (∃ m, (BaseOrchestrator.execute (mkOrch [stageA, kNon, stageC]) () st0).2.metrics =
          some m ∧
        m.map Prod.fst = [stageA].map PipelineStage.name ++ [kNon.name ++ "_error"] ++
          [stageC].map PipelineStage.name) ∧
      (∀ (st : ExecState) (ctx : OperationContext Unit), ctx.errors = [] →
        ∃ st' ctx',
          BaseOrchestrator.runPipeline (mkOrch [stageA, kNon, stageC]).config
            ([stageA] ++ kNon :: [stageC]) st ctx = (st', .ok ctx') ∧
          ctx'.errors = [(Thrown.errVal { message := "boom" }).toError])) :=
  ⟨by decide,
    claimC4_noncritical_continues (mkOrch [stageA, kNon, stageC]) () st0 [stageA] [stageC]
      kNon (.errVal { message := "boom" }) (by decide) rfl rfl rfl rfl
      (by
        intro s hs
        rcases List.mem_cons.mp hs with rfl | hs2
        · exact ⟨rfl, fun c => ⟨c, rfl, rfl, rfl⟩⟩
        · exact absurd hs2 (List.not_mem_nil s))
      (by
        intro s hs
        rcases List.mem_cons.mp hs with rfl | hs2
        · exact ⟨rfl, fun c => ⟨c, rfl, rfl, rfl⟩⟩
        · exact absurd hs2 (List.not_mem_nil s))
      (by decide) (by decide) (fun c => rfl) (by decide) (by decide) (by decide)
      (by decide) (by decide) (fun c => ⟨(), rfl⟩)⟩

/-- C1 counterexample: a stage whose critical field is left unset and whose
operation throws does NOT abort the pipeline: the next stage still runs
(its entry appears in the metrics map) and execute returns success true,
refuting the claimed fail-fast default. -/
theorem claimC1_counterexample :
    unsetCriticalStage.critical = none ∧
    (∀ c, unsetCriticalStage.operation.run c =
      .error (.errVal { message := "boom" })) ∧
    (BaseOrchestrator.execute demoOrchC1 () st0).2.success = true ∧
    (BaseOrchestrator.execute demoOrchC1 () st0).2.metrics =
      some [("s1_error", 0), ("s2", 0)] :=
  ⟨rfl, fun c => rfl, by decide, by decide⟩

/-- C1 amended: a stage with critical left unset is treated as
non-critical (only `critical: true` is truthy in the abort test): its
failure is appended to the context error list and the pipeline continues
through the remaining stages, so execute can return success true. -/
theorem claimC1_unset_critical_continues (o : BaseOrchestrator γ α β) (input : γ)
    (st0 : ExecState) (A B : List (PipelineStage α)) (k : PipelineStage α) (e : Thrown)
    (hm : o.config.enableMetrics = true) {ctx0 : OperationContext α}
    (hinit : o.initializeContext input = .ok ctx0) (htr : ctx0.perfTracker = none)
    (hpipe : o.getPipeline = A ++ k :: B)
    (hgoodA : ∀ s ∈ A, GoodStage s) (hgoodB : ∀ s ∈ B, GoodStage s)
    (hkcrit : k.critical = none) (hkTO : k.timesOut = false)
    (hkfail : ∀ c, k.operation.run c = .error e)
    (hndA : (A.map PipelineStage.name).Nodup)
    (hndB : (B.map PipelineStage.name).Nodup)
    (hkfreshA : (k.name ++ "_error") ∉ A.map PipelineStage.name)
    (hBfresh : ∀ b ∈ B, b.name ∉ A.map PipelineStage.name ∧ b.name ≠ k.name ++ "_error")
    (hbudget : ((costSum A + k.operation.cost + costSum B : Nat) : Int) ≤
      (o.config.timeout : Int))
    (hbuild : ∀ c, ∃ r, o.buildResult c = .ok r) :
    (BaseOrchestrator.execute o input st0).2.success = true ∧
    (∃ m, (BaseOrchestrator.execute o input st0).2.metrics = some m ∧
      m.map Prod.fst = A.map PipelineStage.name ++ [k.name ++ "_error"] ++
        B.map PipelineStage.name) ∧
    (∀ (st : ExecState) (ctx : OperationContext α), ctx.errors = [] →
      ∃ st' ctx',
        BaseOrchestrator.runPipeline o.config (A ++ k :: B) st ctx = (st', .ok ctx') ∧
        ctx'.errors = [e.toError]) :=
  execute_noncritical_scenario o input st0 A B k e hm hinit htr hpipe hgoodA hgoodB
    (by simp [hkcrit]) hkTO hkfail hndA hndB hkfreshA hBfresh hbudget hbuild

/-- Witness for the amended C1: a succeeding stage a, the failing stage k
with critical unset, then a succeeding stage c. -/
theorem claimC1_unset_critical_continues_witness :
    kUnset.critical = none ∧
    ((BaseOrchestrator.execute (mkOrch [stageA, kUnset, stageC]) () st0).2.success = true ∧
      (∃ m, (BaseOrchestrator.execute (mkOrch [stageA, kUnset, stageC]) () st0).2.metrics =
          some m ∧
        m.map Prod.fst = [stageA].map PipelineStage.name ++ [kUnset.name ++ "_error"] ++
          [stageC].map PipelineStage.name) ∧
      (∀ (st : ExecState) (ctx : OperationContext Unit), ctx.errors = [] →
        ∃ st' ctx',
          BaseOrchestrator.runPipeline (mkOrch [stageA, kUnset, stageC]).config
            ([stageA] ++ kUnset :: [stageC]) st ctx = (st', .ok ctx') ∧
          ctx'.errors = [(Thrown.errVal { message := "boom" }).toError])) :=
  ⟨rfl,
    claimC1_unset_critical_continues (mkOrch [stageA, kUnset, stageC]) () st0 [stageA]
      [stageC] kUnset (.errVal { message := "boom" }) (by decide) rfl rfl rfl
      (by
        intro s hs
        rcases List.mem_cons.mp hs with rfl | hs2
        · exact ⟨rfl, fun c => ⟨c, rfl, rfl, rfl⟩⟩
        · exact absurd hs2 (List.not_mem_nil s))
      (by
        intro s hs
        rcases List.mem_cons.mp hs with rfl | hs2
        · exact ⟨rfl, fun c => ⟨c, rfl, rfl, rfl⟩⟩
        · exact absurd hs2 (List.not_mem_nil s))
      rfl (by decide) (fun c => rfl) (by decide) (by decide) (by decide) (by decide)
      (by decide) (fun c => ⟨(), rfl⟩)⟩

/-- C6 counterexample: with metrics enabled, a single critical stage that
throws produces TWO pipeline-error increments: one labelled with the stage
name inside the loop and one labelled unknown from the top-level catch of
execute — refuting the claim that the placeholder label appears only for
throws outside the loop. -/
theorem claimC6_counterexample :
    demoOrchC6.config.enableMetrics = true ∧
    criticalBoomStage.critical = some true ∧
    (BaseOrchestrator.execute demoOrchC6 () st0).1.sink.pipelineErrors =
      [("svc", "s1"), ("svc", "unknown")] :=
  ⟨by decide, rfl, by decide⟩

/-- C6 amended: with metrics enabled and exactly one failing stage k, the
pipeline-error counter receives exactly one increment labelled with the
name of k; when k is critical its error escapes the loop and the top-level
catch of execute additionally increments the counter with the placeholder
label unknown (so critical in-loop failures are double-counted); when k is
non-critical and the rest of the run succeeds, the stage-labelled
increment is the only one. -/
theorem claimC6_error_counter (o : BaseOrchestrator γ α β) (input : γ) (st0 : ExecState)
    (A B : List (PipelineStage α)) (k : PipelineStage α) (e : Thrown)
    (hm : o.config.enableMetrics = true) {ctx0 : OperationContext α}
    (hinit : o.initializeContext input = .ok ctx0)
    (hpipe : o.getPipeline = A ++ k :: B)
    (hgoodA : ∀ s ∈ A, GoodStage s) (hgoodB : ∀ s ∈ B, GoodStage s)
    (hkTO : k.timesOut = false)
    (hkfail : ∀ c, k.operation.run c = .error e)
    (hbudget : ((costSum A + k.operation.cost + costSum B : Nat) : Int) ≤
      (o.config.timeout : Int))
    (hbuild : ∀ c, ∃ r, o.buildResult c = .ok r) :
    (k.critical = some true →
      (BaseOrchestrator.execute o input st0).1.sink.pipelineErrors =
        st0.sink.pipelineErrors ++
          [(o.config.name, k.name), (o.config.name, "unknown")]) ∧
    (k.critical = some false →
      (BaseOrchestrator.execute o input st0).1.sink.pipelineErrors =
        st0.sink.pipelineErrors ++ [(o.config.name, k.name)]) := by
  constructor
  · intro hkc
    obtain ⟨stD, hEq, hNow, hTrack, hPE, hAO⟩ :=
      runPipeline_failCritical o.config A B k e hgoodA hkTO hkfail hkc
        (freshTrackerStore o.config ctx0 (preStB o st0)) (attachTracker o.config ctx0)
    rw [← hpipe] at hEq
    have hle : stD.now - (freshTrackerStore o.config ctx0 (preStB o st0)).now ≤
        (o.config.timeout : Int) := by
      rw [hNow, add_sub_cancel_left]
      refine le_trans ?_ hbudget
      push_cast
      omega
    have hP := runPipelineWithTimeout_of_le hEq hle
    rw [execute_pipeline_error o input st0 hinit hP, catchReturn_fst_pipelineErrors,
      hPE, freshTrackerStore_sink, preStB_pipelineErrors]
    simp [hm]
  · intro hkc
    obtain ⟨stD, ctx2, hEq, hErrs, hTr, hNow, hTrack, hPE, hAO⟩ :=
      runPipeline_failNoncritical o.config A B k e hgoodA hgoodB hkTO hkfail
        (by simp [hkc])
        (freshTrackerStore o.config ctx0 (preStB o st0)) (attachTracker o.config ctx0)
    rw [← hpipe] at hEq
    have hle : stD.now - (freshTrackerStore o.config ctx0 (preStB o st0)).now ≤
        (o.config.timeout : Int) := by
      rw [hNow, add_sub_cancel_left]
      exact hbudget
    have hP := runPipelineWithTimeout_of_le hEq hle
    obtain ⟨r, hr⟩ := hbuild ctx2
    rw [execute_success o input st0 hinit hP hr, successReturn_fst_pipelineErrors,
      hPE, freshTrackerStore_sink, preStB_pipelineErrors]
    simp [hm]

/-- Witness for the amended C6 with the critical failing stage k. -/
theorem claimC6_error_counter_witness :
    (mkOrch [stageA, kCrit, stageC]).config.enableMetrics = true ∧
    ((kCrit.critical = some true →
      (BaseOrchestrator.execute (mkOrch [stageA, kCrit, stageC]) () st0).1.sink.pipelineErrors =
        st0.sink.pipelineErrors ++ [("svc", kCrit.name), ("svc", "unknown")]) ∧
     (kCrit.critical = some false →
      (BaseOrchestrator.execute (mkOrch [stageA, kCrit, stageC]) () st0).1.sink.pipelineErrors =
        st0.sink.pipelineErrors ++ [("svc", kCrit.name)])) :=
  ⟨by decide,
    claimC6_error_counter (mkOrch [stageA, kCrit, stageC]) () st0 [stageA] [stageC] kCrit
      (.errVal { message := "boom" }) (by decide) rfl rfl
      (by
        intro s hs
        rcases List.mem_cons.mp hs with rfl | hs2
        · exact ⟨rfl, fun c => ⟨c, rfl, rfl, rfl⟩⟩
        · exact absurd hs2 (List.not_mem_nil s))
      (by
        intro s hs
        rcases List.mem_cons.mp hs with rfl | hs2
        · exact ⟨rfl, fun c => ⟨c, rfl, rfl, rfl⟩⟩
        · exact absurd hs2 (List.not_mem_nil s))
      (by decide) (fun c => rfl) (by decide) (fun c => ⟨(), rfl⟩)⟩

/-- C8: the stage wrapper is transparent: it returns exactly the original
outcome (the result on success, the rethrown original thrown value on
failure, never swallowed), and it records the non-negative elapsed
duration into the tracker referenced by the context, under the plain name
on success and under the error-suffixed name on failure; the two keys are
always distinct. -/
theorem claimC8_wrap_transparent (op : StageOp α) (nm : String) (st : ExecState)
    (ctx : OperationContext α) (h : ctx.perfTracker = some .defaultTracker) :
    (PerformanceInterceptor.wrap op nm st ctx).2 = op.run ctx ∧
    (PerformanceInterceptor.wrap op nm st ctx).1.trackerData =
      recordEntry st.trackerData
        (if (op.run ctx).toOption.isSome then nm else nm ++ "_error") (op.cost : Int) ∧
    0 ≤ (op.cost : Int) ∧
    nm ≠ nm ++ "_error" := by
  refine ⟨wrap_snd op nm st ctx, ?_, Int.natCast_nonneg op.cost, ?_⟩
  · cases hr : op.run ctx with
    | ok c =>
        rw [wrap_run_ok nm st hr]
        simp [hr, trackPoint, h, Except.toOption]
    | error e =>
        rw [wrap_run_error nm st hr]
        simp [hr, trackPoint, h, Except.toOption]
  · intro hc
    have hlen := congrArg String.length hc
    rw [String.length_append] at hlen
    have h6 : ("_error" : String).length = 6 := rfl
    omega

/-- Witness for C8 on a failing operation with a tracked context. -/
theorem claimC8_wrap_transparent_witness :
    demoCtxTracked.perfTracker = some TrackerRef.defaultTracker ∧
    ((PerformanceInterceptor.wrap boomOp "s1" st0 demoCtxTracked).2 =
        boomOp.run demoCtxTracked ∧
      (PerformanceInterceptor.wrap boomOp "s1" st0 demoCtxTracked).1.trackerData =
        recordEntry st0.trackerData
          (if (boomOp.run demoCtxTracked).toOption.isSome then "s1" else "s1" ++ "_error")
          (boomOp.cost : Int) ∧
      0 ≤ (boomOp.cost : Int) ∧
      "s1" ≠ "s1" ++ "_error") :=
  ⟨rfl, claimC8_wrap_transparent boomOp "s1" st0 demoCtxTracked rfl⟩

end Orchestration
